import Mathlib

/-!
# Verification of the Oppia `Exploration` storage model

A shallow embedding of `apps/exploration/models.py`: the `Exploration` ndb
model, its pre-put validation hook, its query helpers and its state-list
management methods.  The managed datastore is modelled as lists of records
keyed by their string ids; Python exceptions are modelled by an explicit
error type, and every method that can raise returns an `Except` value.
-/

namespace Oppia

/-- A datastore user, the value of an ndb `UserProperty`.  Only identity
matters to the exploration model, so a user is just its account string. -/
structure User where
  account : String
deriving DecidableEq, Repr

/-- Modelled from the spec: `Parameter` (`apps/parameter/models.py`) is not
part of the source under consideration; the exploration model stores its
parameters opaquely, so only identity matters. -/
structure Parameter where
  name : String
deriving DecidableEq, Repr

/-- Modelled from the spec: `State` (`apps/state/models.py`) is not part of
the source under consideration; the exploration model reads only a state's
datastore id and its `name`. -/
structure State where
  id : String
  name : String
deriving DecidableEq, Repr

/-- The `Exploration` record: `category`, `title`, `state_ids`, `parameters`,
`is_public`, `image_id`, `editors`, plus the string `id` inherited from
`IdModel`. -/
structure Exploration where
  id : String
  category : String
  title : String
  state_ids : List String
  parameters : List Parameter
  is_public : Bool
  image_id : Option String
  editors : List User
deriving DecidableEq, Repr

/-- The Python exceptions the module can raise: the `ModelValidationError`
raised by the pre-put hook, the bare `Exception` raised by `add_state`, the
`IndexError` from indexing an empty list, and the lookup error raised by a
strict `State.get` on a missing id. -/
inductive PyError where
  | modelValidationError (msg : String)
  | exception (msg : String)
  | indexError
  | entityNotFoundError
deriving DecidableEq, Repr

/-- Modelled from the spec: the managed datastore, holding the persisted
`State` records and the persisted `Exploration` records, each keyed by id. -/
structure Datastore where
  states : List State
  explorations : List Exploration
deriving DecidableEq, Repr

/-- Modelled from the spec: `State.get(state_id, strict=False)` — the stored
state with the given id, or `none` when there is none. -/
def stateGet (states : List State) (sid : String) : Option State :=
  states.find? (fun s => s.id == sid)

/-- Modelled from the spec: `State.get(state_id)` (strict) — the stored state
with the given id, raising a lookup error when there is none. -/
def stateGetStrict (states : List State) (sid : String) : Except PyError State :=
  match stateGet states sid with
  | some s => Except.ok s
  | none => Except.error PyError.entityNotFoundError

/-- Modelled from the spec: deleting a state entity removes the record stored
under its id. -/
def stateDelete (states : List State) (sid : String) : List State :=
  states.filter (fun s => s.id != sid)

/-- Modelled from the spec: `state.put()` stores the entity under its id,
replacing any record already stored there. -/
def statePut (states : List State) (s : State) : List State :=
  stateDelete states s.id ++ [s]

/-- The stored exploration with the given id, if any. -/
def expGet (exps : List Exploration) (eid : String) : Option Exploration :=
  exps.find? (fun e => e.id == eid)

/-- Modelled from the spec: deleting the exploration record removes it from
the store (`IdModel.delete` is outside the source under consideration). -/
def expDelete (exps : List Exploration) (eid : String) : List Exploration :=
  exps.filter (fun e => e.id != eid)

/-- Stores an exploration record under its id, replacing any record already
stored there. -/
def expPut (exps : List Exploration) (e : Exploration) : List Exploration :=
  expDelete exps e.id ++ [e]

/-- Python `str.isdigit()`: true exactly when the string is non-empty and
every character is a digit. -/
def pyIsDigit (s : String) : Bool :=
  !s.isEmpty && s.toList.all Char.isDigit

/-- Python `int(s)` on a digit string: its decimal value. -/
def pyStrToNat (s : String) : Nat :=
  s.toList.foldl (fun n c => 10 * n + (c.toNat - 48)) 0

/-- Embeds `Exploration.is_demo`: `self.id.isdigit() and
0 <= int(self.id) < len(feconf.DEMO_EXPLORATIONS)`.  Modelled from the spec:
`feconf.DEMO_EXPLORATIONS` is outside the source under consideration and
only its length matters, so it is the parameter `numDemos`. -/
def is_demo (numDemos : Nat) (e : Exploration) : Bool :=
  pyIsDigit e.id && decide (0 ≤ pyStrToNat e.id ∧ pyStrToNat e.id < numDemos)

/-- The loop of `_pre_put_hook`: for each state id in order, raise
`ModelValidationError('Invalid state_id %s.')` if a non-strict `State.get`
returns nothing. -/
def checkStateIds (states : List State) : List String → Except PyError Unit
  | [] => Except.ok ()
  | sid :: rest =>
    if (stateGet states sid).isSome then checkStateIds states rest
    else Except.error (PyError.modelValidationError "Invalid state_id %s.")

/-- Embeds `Exploration._pre_put_hook`: raise if `state_ids` is empty, then raise at
the first state id that does not resolve, then raise if the exploration is
not a demo and has no editors; otherwise return normally. -/
def pre_put_hook (states : List State) (numDemos : Nat) (e : Exploration) :
    Except PyError Unit :=
  if e.state_ids.isEmpty then
    Except.error (PyError.modelValidationError "This exploration has no states.")
  else
    match checkStateIds states e.state_ids with
    | Except.error err => Except.error err
    | Except.ok () =>
      if !is_demo numDemos e && e.editors.isEmpty then
        Except.error (PyError.modelValidationError "This exploration has no editors.")
      else
        Except.ok ()

/-- Embeds `exploration.put()`: ndb runs `_pre_put_hook` and, when it returns
normally, commits the record to the datastore. -/
def explorationPut (numDemos : Nat) (ds : Datastore) (e : Exploration) :
    Except PyError Datastore :=
  match pre_put_hook ds.states numDemos e with
  | Except.error err => Except.error err
  | Except.ok () => Except.ok { ds with explorations := expPut ds.explorations e }

/-- Embeds `Exploration.get_all_explorations`: the query over all explorations. -/
def get_all_explorations (ds : Datastore) : List Exploration :=
  ds.explorations

/-- Embeds `Exploration.get_public_explorations`:
`get_all_explorations().filter(cls.is_public == True)`. -/
def get_public_explorations (ds : Datastore) : List Exploration :=
  (get_all_explorations ds).filter (fun e => e.is_public)

/-- Embeds `Exploration.get_viewable_explorations(user)`:
`filter(ndb.OR(cls.is_public == True, cls.editors == user))`; on the repeated
property `editors` the ndb equality filter matches the entities whose list
contains the value. -/
def get_viewable_explorations (ds : Datastore) (user : User) : List Exploration :=
  (get_all_explorations ds).filter (fun e => e.is_public || e.editors.contains user)

/-- Embeds `Exploration.get_exploration_count`. -/
def get_exploration_count (ds : Datastore) : Nat :=
  (get_all_explorations ds).length

/-- The loop of `Exploration.delete`: `State.get(state_id).delete()` for each
state id in order; the strict get raises on a missing id, at which point the
earlier deletions have already happened. -/
def deleteStatesLoop (ds : Datastore) : List String → Datastore × Option PyError
  | [] => (ds, none)
  | sid :: rest =>
    match stateGet ds.states sid with
    | none => (ds, some PyError.entityNotFoundError)
    | some _ => deleteStatesLoop { ds with states := stateDelete ds.states sid } rest

/-- Embeds `Exploration.delete`: delete every state referenced by `state_ids`, then
delete the exploration record itself; a failing state lookup propagates and
the record survives. -/
def Exploration.delete (ds : Datastore) (e : Exploration) :
    Datastore × Option PyError :=
  match deleteStatesLoop ds e.state_ids with
  | (ds1, some err) => (ds1, some err)
  | (ds1, none) => ({ ds1 with explorations := expDelete ds1.explorations e.id }, none)

/-- Embeds `Exploration.init_state`: `State.get(self.state_ids[0])` — indexing an
empty list raises `IndexError`, and the strict get raises on a missing id. -/
def init_state (ds : Datastore) (e : Exploration) : Except PyError State :=
  match e.state_ids with
  | [] => Except.error PyError.indexError
  | sid :: _ => stateGetStrict ds.states sid

/-- The evaluation of the list comprehension inside
`Exploration._has_state_named`: a strict get for each state id from left to
right, the first failure propagating. -/
def getStates (states : List State) : List String → Except PyError (List State)
  | [] => Except.ok []
  | sid :: rest =>
    match stateGetStrict states sid with
    | Except.error err => Except.error err
    | Except.ok s =>
      match getStates states rest with
      | Except.error err => Except.error err
      | Except.ok ss => Except.ok (s :: ss)

/-- Embeds `Exploration._has_state_named`: `any([State.get(state_id).name ==
state_name for state_id in self.state_ids])` — the comprehension evaluates a
strict get for every id (raising at the first missing one) and then `any`
tests the collected names. -/
def has_state_named (states : List State) (e : Exploration) (state_name : String) :
    Except PyError Bool :=
  match getStates states e.state_ids with
  | Except.error err => Except.error err
  | Except.ok ss => Except.ok (ss.any (fun s => s.name == state_name))

/-- Embeds `Exploration.is_editable_by`: `user and (user in self.editors)` — a null
user short-circuits to a falsy value, otherwise list membership. -/
def is_editable_by (e : Exploration) (user : Option User) : Bool :=
  match user with
  | none => false
  | some u => e.editors.contains u

/-- Embeds `Exploration.is_owned_by`: `user and user == self.editors[0]` — a null
user short-circuits to a falsy value; otherwise `self.editors[0]` raises
`IndexError` on an empty editors list. -/
def is_owned_by (e : Exploration) (user : Option User) : Except PyError Bool :=
  match user with
  | none => Except.ok false
  | some u =>
    match e.editors with
    | [] => Except.error PyError.indexError
    | e0 :: _ => Except.ok (u == e0)

/-- Embeds `state_id = state_id or State.get_new_id(state_name)`: the given id when
it is truthy (non-null and non-empty), else the freshly generated one. -/
def chosenId (state_id : Option String) (genId : String) : String :=
  match state_id with
  | none => genId
  | some s => if s.isEmpty then genId else s

/-- Embeds `Exploration.add_state(state_name, state_id=None)`: raise on a duplicate
name, otherwise create the state (under the given id when it is truthy,
else under the fresh id `genId` from `State.get_new_id`, which is outside
the source under consideration), put it, append its id to `state_ids`, put
the exploration (re-running the pre-put hook) and return the new state.
The returned datastore and exploration reflect the mutations performed
before any raise. -/
def add_state (numDemos : Nat) (ds : Datastore) (e : Exploration)
    (state_name : String) (state_id : Option String) (genId : String) :
    Datastore × Exploration × Except PyError State :=
  match has_state_named ds.states e state_name with
  | Except.error err => (ds, e, Except.error err)
  | Except.ok true =>
    (ds, e, Except.error (PyError.exception ("Duplicate state name " ++ state_name)))
  | Except.ok false =>
    let new_state : State := ⟨chosenId state_id genId, state_name⟩
    let ds1 : Datastore := { ds with states := statePut ds.states new_state }
    let e1 : Exploration := { e with state_ids := e.state_ids ++ [new_state.id] }
    match explorationPut numDemos ds1 e1 with
    | Except.error err => (ds1, e1, Except.error err)
    | Except.ok ds2 => (ds2, e1, Except.ok new_state)

/-- Embeds `Exploration.add_editor`: append the editor; the method performs no
datastore call, so the store comes back unchanged. -/
def add_editor (ds : Datastore) (e : Exploration) (editor : User) :
    Datastore × Exploration :=
  (ds, { e with editors := e.editors ++ [editor] })

/-! ## Store lemmas -/

lemma stateGet_stateDelete (states : List State) (sid x : String) :
    stateGet (stateDelete states sid) x = if x = sid then none else stateGet states x := by
  unfold stateGet stateDelete
  rw [List.find?_filter]
  by_cases hx : x = sid
  · subst hx
    rw [if_pos rfl, List.find?_eq_none]
    intro s _ h
    simp only [decide_eq_true_eq, bne_iff_ne, beq_iff_eq] at h
    exact h.1 h.2
  · rw [if_neg hx]
    congr 1
    funext s
    by_cases hs : s.id = x
    · subst hs
      have : ¬s.id = sid := fun h => hx h
      simp [this]
    · simp [hs]

lemma stateGet_statePut (states : List State) (s : State) (x : String) :
    stateGet (statePut states s) x = if x = s.id then some s else stateGet states x := by
  have h := stateGet_stateDelete states s.id x
  unfold statePut
  unfold stateGet at h ⊢
  rw [List.find?_append, h]
  by_cases hx : x = s.id
  · subst hx
    simp
  · have hne : (s.id == x) = false := by
      simpa using fun h => hx h.symm
    simp [hx, List.find?, hne]

lemma expGet_expDelete (exps : List Exploration) (eid x : String) :
    expGet (expDelete exps eid) x = if x = eid then none else expGet exps x := by
  unfold expGet expDelete
  rw [List.find?_filter]
  by_cases hx : x = eid
  · subst hx
    rw [if_pos rfl, List.find?_eq_none]
    intro e _ h
    simp only [decide_eq_true_eq, bne_iff_ne, beq_iff_eq] at h
    exact h.1 h.2
  · rw [if_neg hx]
    congr 1
    funext e
    by_cases he : e.id = x
    · subst he
      have : ¬e.id = eid := fun h => hx h
      simp [this]
    · simp [he]

lemma expGet_expPut (exps : List Exploration) (e : Exploration) (x : String) :
    expGet (expPut exps e) x = if x = e.id then some e else expGet exps x := by
  have h := expGet_expDelete exps e.id x
  unfold expPut
  unfold expGet at h ⊢
  rw [List.find?_append, h]
  by_cases hx : x = e.id
  · subst hx
    simp
  · have hne : (e.id == x) = false := by
      simpa using fun h => hx h.symm
    simp [hx, List.find?, hne]

/-! ## Pre-put hook characterization -/

lemma checkStateIds_ok_iff (states : List State) (l : List String) :
    checkStateIds states l = Except.ok () ↔
      ∀ sid ∈ l, (stateGet states sid).isSome = true := by
  induction l with
  | nil => simp [checkStateIds]
  | cons sid rest ih =>
    simp only [checkStateIds]
    by_cases h : (stateGet states sid).isSome = true
    · rw [if_pos h, ih]
      constructor
      · intro hall x hx
        rcases List.mem_cons.mp hx with hx1 | hx2
        · exact hx1 ▸ h
        · exact hall x hx2
      · intro hall x hx
        exact hall x (List.mem_cons_of_mem _ hx)
    · rw [if_neg h]
      constructor
      · intro hcontra
        exact absurd hcontra (by simp)
      · intro hall
        exact absurd (hall sid (List.mem_cons_self _ _)) h

lemma checkStateIds_cases (states : List State) (l : List String) :
    checkStateIds states l = Except.ok () ∨
      checkStateIds states l =
        Except.error (PyError.modelValidationError "Invalid state_id %s.") := by
  induction l with
  | nil => exact Or.inl rfl
  | cons sid rest ih =>
    simp only [checkStateIds]
    by_cases h : (stateGet states sid).isSome = true
    · rw [if_pos h]; exact ih
    · rw [if_neg h]; exact Or.inr rfl

lemma pre_put_hook_cases (states : List State) (numDemos : Nat) (e : Exploration) :
    pre_put_hook states numDemos e = Except.ok () ∨
      ∃ msg, pre_put_hook states numDemos e =
        Except.error (PyError.modelValidationError msg) := by
  unfold pre_put_hook
  by_cases h0 : e.state_ids.isEmpty = true
  · rw [if_pos h0]
    exact Or.inr ⟨_, rfl⟩
  · rw [if_neg h0]
    rcases checkStateIds_cases states e.state_ids with hc | hc
    · rw [hc]
      by_cases h1 : (!is_demo numDemos e && e.editors.isEmpty) = true
      · rw [if_pos h1]
        exact Or.inr ⟨_, rfl⟩
      · rw [if_neg h1]
        exact Or.inl rfl
    · rw [hc]
      exact Or.inr ⟨_, rfl⟩

lemma pre_put_hook_ok_iff (states : List State) (numDemos : Nat) (e : Exploration) :
    pre_put_hook states numDemos e = Except.ok () ↔
      ¬(e.state_ids = [] ∨
        (∃ sid ∈ e.state_ids, stateGet states sid = none) ∨
        (is_demo numDemos e = false ∧ e.editors = [])) := by
  unfold pre_put_hook
  by_cases h0 : e.state_ids.isEmpty = true
  · rw [if_pos h0]
    simp [List.isEmpty_iff.mp h0]
  · rw [if_neg h0]
    have hne : ¬e.state_ids = [] := fun h => h0 (by simp [h])
    rcases checkStateIds_cases states e.state_ids with hc | hc
    · rw [hc]
      have hall := (checkStateIds_ok_iff states e.state_ids).mp hc
      by_cases h1 : (!is_demo numDemos e && e.editors.isEmpty) = true
      · rw [if_pos h1]
        simp only [Bool.and_eq_true, Bool.not_eq_true', List.isEmpty_iff] at h1
        constructor
        · intro hcontra
          exact absurd hcontra (by simp)
        · intro hcontra
          exact absurd (Or.inr (Or.inr h1)) hcontra
      · rw [if_neg h1]
        simp only [Bool.and_eq_true, Bool.not_eq_true', List.isEmpty_iff, not_and] at h1
        constructor
        · intro _ hcontra
          rcases hcontra with h | h | h
          · exact hne h
          · rcases h with ⟨sid, hmem, hnone⟩
            have := hall sid hmem
            rw [hnone] at this
            exact absurd this (by simp)
          · exact h1 h.1 h.2
        · intro _
          rfl
    · rw [hc]
      constructor
      · intro hcontra
        exact absurd hcontra (by simp)
      · intro hcontra
        exfalso
        apply hcontra
        refine Or.inr (Or.inl ?hx)
        have : ¬checkStateIds states e.state_ids = Except.ok () := by
          rw [hc]; simp
        rw [checkStateIds_ok_iff] at this
        push_neg at this
        rcases this with ⟨sid, hmem, hns⟩
        exact ⟨sid, hmem, Option.not_isSome_iff_eq_none.mp hns⟩

/-- C1: the pre-put validation hook raises a `ModelValidationError` exactly
when the state list is empty, some state id does not resolve, or the
exploration is neither a demo nor has an editor; when all three invariants
hold it returns normally. -/
theorem pre_put_hook_valid_iff (states : List State) (numDemos : Nat) (e : Exploration) :
    ((∃ msg, pre_put_hook states numDemos e =
        Except.error (PyError.modelValidationError msg)) ↔
      (e.state_ids = [] ∨
        (∃ sid ∈ e.state_ids, stateGet states sid = none) ∨
        (is_demo numDemos e = false ∧ e.editors = []))) ∧
    (pre_put_hook states numDemos e = Except.ok () ↔
      ¬(e.state_ids = [] ∨
        (∃ sid ∈ e.state_ids, stateGet states sid = none) ∨
        (is_demo numDemos e = false ∧ e.editors = []))) := by
  refine ⟨?he, pre_put_hook_ok_iff states numDemos e⟩
  constructor
  · intro herr
    rcases herr with ⟨msg, hmsg⟩
    by_contra hcontra
    have := (pre_put_hook_ok_iff states numDemos e).mpr hcontra
    rw [this] at hmsg
    exact absurd hmsg (by simp)
  · intro hP
    rcases pre_put_hook_cases states numDemos e with hok | herr
    · exfalso
      exact (pre_put_hook_ok_iff states numDemos e).mp hok hP
    · exact herr

/-! ## Query helpers -/

/-- C6: `get_public_explorations` returns exactly the stored explorations
whose `is_public` flag is set. -/
theorem get_public_explorations_mem_iff (ds : Datastore) (e : Exploration) :
    e ∈ get_public_explorations ds ↔ e ∈ ds.explorations ∧ e.is_public = true := by
  simp [get_public_explorations, get_all_explorations, List.mem_filter]

/-- C7: `get_viewable_explorations user` returns exactly the stored
explorations that are public or list the user among their editors. -/
theorem get_viewable_explorations_mem_iff (ds : Datastore) (user : User) (e : Exploration) :
    e ∈ get_viewable_explorations ds user ↔
      e ∈ ds.explorations ∧ (e.is_public = true ∨ user ∈ e.editors) := by
  simp [get_viewable_explorations, get_all_explorations, List.mem_filter]

/-! ## Ownership and editorship -/

/-- C8: on an exploration with a non-empty editors list, `is_owned_by user`
returns normally, and returns a truthy value exactly when the user is
non-null and equal to the first editor (the original creator). -/
theorem is_owned_by_truthy_iff (e : Exploration) (u : Option User)
    (e0 : User) (rest : List User) (h : e.editors = e0 :: rest) :
    ∃ b : Bool, is_owned_by e u = Except.ok b ∧ (b = true ↔ u = some e0) := by
  cases u with
  | none => exact ⟨false, rfl, by simp⟩
  | some v =>
    refine ⟨v == e0, ?h1, ?h2⟩
    · unfold is_owned_by
      rw [h]
    · simp

/-- Witness for C8: the creator of a one-editor exploration owns it. -/
theorem is_owned_by_truthy_iff_witness :
    ∃ b : Bool,
      is_owned_by ⟨"e", "c", "t", ["a"], [], false, none, [⟨"alice"⟩]⟩
        (some ⟨"alice"⟩) = Except.ok b ∧
      (b = true ↔ some (⟨"alice"⟩ : User) = some (⟨"alice"⟩ : User)) :=
  is_owned_by_truthy_iff _ _ ⟨"alice"⟩ [] rfl

/-- C9: with an empty editors list, `is_owned_by` raises an `IndexError` on a
non-null user (and short-circuits to a falsy value on a null user), while
`is_editable_by` never raises: it is truthy exactly for a non-null user who
is among the editors. -/
theorem is_owned_by_partial_is_editable_total (e eg : Exploration) (u : User)
    (ug : Option User) (h : e.editors = []) :
    is_owned_by e (some u) = Except.error PyError.indexError ∧
    is_owned_by e none = Except.ok false ∧
    (is_editable_by eg ug = true ↔ ∃ v, ug = some v ∧ v ∈ eg.editors) := by
  refine ⟨?h1, rfl, ?h2⟩
  · unfold is_owned_by
    rw [h]
  · cases ug with
    | none => simp [is_editable_by]
    | some v => simp [is_editable_by]

/-- Witness for C9: a demo-style exploration with no editors makes
`is_owned_by` raise, and a stranger cannot edit a one-editor exploration. -/
theorem is_owned_by_partial_is_editable_total_witness :
    is_owned_by ⟨"0", "c", "t", ["a"], [], true, none, []⟩ (some ⟨"bob"⟩) =
        Except.error PyError.indexError ∧
    is_owned_by ⟨"0", "c", "t", ["a"], [], true, none, []⟩ none = Except.ok false ∧
    (is_editable_by ⟨"e", "c", "t", ["a"], [], false, none, [⟨"alice"⟩]⟩
        (some ⟨"bob"⟩) = true ↔
      ∃ v, (some ⟨"bob"⟩ : Option User) = some v ∧
        v ∈ ([⟨"alice"⟩] : List User)) :=
  is_owned_by_partial_is_editable_total _ _ _ _ rfl

/-- C10: `add_editor` appends the editor, leaves every other field of the
exploration unchanged, and performs no datastore write. -/
theorem add_editor_frame (ds : Datastore) (e : Exploration) (ed : User) :
    (add_editor ds e ed).1 = ds ∧
    (add_editor ds e ed).2.editors = e.editors ++ [ed] ∧
    (add_editor ds e ed).2.id = e.id ∧
    (add_editor ds e ed).2.category = e.category ∧
    (add_editor ds e ed).2.title = e.title ∧
    (add_editor ds e ed).2.state_ids = e.state_ids ∧
    (add_editor ds e ed).2.parameters = e.parameters ∧
    (add_editor ds e ed).2.is_public = e.is_public ∧
    (add_editor ds e ed).2.image_id = e.image_id :=
  ⟨rfl, rfl, rfl, rfl, rfl, rfl, rfl, rfl, rfl⟩

/-! ## add_state -/

lemma getStates_ok_resolves (states : List State) (l : List String) (ss : List State)
    (h : getStates states l = Except.ok ss) :
    ∀ sid ∈ l, (stateGet states sid).isSome = true := by
  induction l generalizing ss with
  | nil => simp
  | cons a rest ih =>
    intro x hx
    unfold getStates at h
    cases ha : stateGetStrict states a with
    | error err => rw [ha] at h; exact absurd h (by simp)
    | ok s =>
      rw [ha] at h
      cases hr : getStates states rest with
      | error err => rw [hr] at h; exact absurd h (by simp)
      | ok ss2 =>
        rcases List.mem_cons.mp hx with hx1 | hx2
        · subst hx1
          unfold stateGetStrict at ha
          cases hg : stateGet states x with
          | none => rw [hg] at ha; exact absurd ha (by simp)
          | some s2 => simp [hg]
        · exact ih ss2 hr x hx2

lemma has_state_named_ok_getStates (states : List State) (e : Exploration)
    (name : String) (b : Bool) (h : has_state_named states e name = Except.ok b) :
    ∃ ss, getStates states e.state_ids = Except.ok ss := by
  unfold has_state_named at h
  cases hg : getStates states e.state_ids with
  | error err => rw [hg] at h; exact absurd h (by simp)
  | ok ss => exact ⟨ss, rfl⟩

lemma pre_put_hook_after_add (numDemos : Nat) (ds : Datastore) (e : Exploration)
    (sname sid : String)
    (hres : ∀ x ∈ e.state_ids, (stateGet ds.states x).isSome = true)
    (hed : is_demo numDemos e = true ∨ e.editors ≠ []) :
    pre_put_hook (statePut ds.states ⟨sid, sname⟩) numDemos
      { e with state_ids := e.state_ids ++ [sid] } = Except.ok () := by
  apply (pre_put_hook_ok_iff _ _ _).mpr
  intro hP
  rcases hP with h | h | h
  · exact absurd h (by simp)
  · rcases h with ⟨x, hx, hnone⟩
    rw [stateGet_statePut] at hnone
    by_cases hxs : x = sid
    · rw [if_pos hxs] at hnone
      exact absurd hnone (by simp)
    · rw [if_neg hxs] at hnone
      have hx2 : x ∈ e.state_ids := by
        rcases List.mem_append.mp hx with h1 | h1
        · exact h1
        · exact absurd (by simpa using h1) hxs
      have := hres x hx2
      rw [hnone] at this
      exact absurd this (by simp)
  · have hid : is_demo numDemos { e with state_ids := e.state_ids ++ [sid] } =
        is_demo numDemos e := rfl
    rcases hed with hd | hd
    · rw [hid, hd] at h
      exact absurd h.1 (by simp)
    · exact hd h.2

/-- C4: when `add_state` fails because a state with the given name already
exists, it raises before any mutation: the datastore and the exploration
come back exactly as they were. -/
theorem add_state_duplicate_unchanged (numDemos : Nat) (ds : Datastore)
    (e : Exploration) (name : String) (state_id : Option String) (genId : String)
    (h : has_state_named ds.states e name = Except.ok true) :
    add_state numDemos ds e name state_id genId =
      (ds, e, Except.error (PyError.exception ("Duplicate state name " ++ name))) := by
  unfold add_state
  rw [h]

/-- Witness for C4: adding a second state named `foo` to an exploration whose
only state is already named `foo` raises and changes nothing. -/
theorem add_state_duplicate_unchanged_witness :
    has_state_named [⟨"a", "foo"⟩] ⟨"e", "c", "t", ["a"], [], false, none, [⟨"u"⟩]⟩
        "foo" = Except.ok true ∧
    add_state 0 ⟨[⟨"a", "foo"⟩], []⟩ ⟨"e", "c", "t", ["a"], [], false, none, [⟨"u"⟩]⟩
        "foo" none "b" =
      (⟨[⟨"a", "foo"⟩], []⟩, ⟨"e", "c", "t", ["a"], [], false, none, [⟨"u"⟩]⟩,
        Except.error (PyError.exception ("Duplicate state name " ++ "foo"))) :=
  ⟨rfl, add_state_duplicate_unchanged 0 _ _ "foo" none "b" rfl⟩

lemma explorationPut_ok_eq (numDemos : Nat) (ds : Datastore) (e : Exploration)
    (h : pre_put_hook ds.states numDemos e = Except.ok ()) :
    explorationPut numDemos ds e =
      Except.ok { ds with explorations := expPut ds.explorations e } := by
  unfold explorationPut
  rw [h]

lemma explorationPut_error_eq (numDemos : Nat) (ds : Datastore) (e : Exploration)
    (err : PyError) (h : pre_put_hook ds.states numDemos e = Except.error err) :
    explorationPut numDemos ds e = Except.error err := by
  unfold explorationPut
  rw [h]

lemma resolve_statePut_append (states : List State) (l : List String)
    (sid sname : String) (hres : ∀ x ∈ l, (stateGet states x).isSome = true) :
    ∀ x ∈ l ++ [sid], (stateGet (statePut states ⟨sid, sname⟩) x).isSome = true := by
  intro x hx
  rw [stateGet_statePut]
  by_cases hxs : x = sid
  · rw [if_pos hxs]
    rfl
  · rw [if_neg hxs]
    have hx2 : x ∈ l := by
      rcases List.mem_append.mp hx with h | h
      · exact h
      · exact absurd (by simpa using h) hxs
    exact hres x hx2

lemma pre_put_hook_no_editors (states : List State) (numDemos : Nat)
    (e : Exploration) (hne : e.state_ids ≠ [])
    (hres : ∀ x ∈ e.state_ids, (stateGet states x).isSome = true)
    (hdemo : is_demo numDemos e = false) (hed : e.editors = []) :
    pre_put_hook states numDemos e =
      Except.error (PyError.modelValidationError "This exploration has no editors.") := by
  unfold pre_put_hook
  rw [if_neg (by simpa using hne)]
  rw [(checkStateIds_ok_iff states e.state_ids).mpr hres]
  dsimp only
  rw [if_pos (by simp [hdemo, hed])]

/-- Counterexample for C3 as stated: on an exploration with no editors that
is not a demo, `add_state` with a fresh name does not return the new state —
the commit re-runs the pre-put hook, which raises, after the new state was
already persisted and its id appended, and without committing the
exploration record. -/
theorem add_state_validation_counterexample :
    has_state_named ([] : List State) ⟨"x", "c", "t", [], [], false, none, []⟩ "foo" =
        Except.ok false ∧
    add_state 0 ⟨[], []⟩ ⟨"x", "c", "t", [], [], false, none, []⟩ "foo" none "s1" =
      (⟨[⟨"s1", "foo"⟩], []⟩, ⟨"x", "c", "t", ["s1"], [], false, none, []⟩,
        Except.error (PyError.modelValidationError "This exploration has no editors.")) :=
  ⟨rfl, rfl⟩

/-- C3 as amended: `add_state` raises on a duplicate name; otherwise it
creates and persists a state carrying the requested name and id (the given
id when truthy, else the generated one), appends its id to `state_ids`,
commits the exploration — provided the committed exploration passes the
pre-put hook, which it does whenever the exploration is a demo or has an
editor — and returns the new state.  When the hook fails instead (non-demo,
no editors), the commit raises: the new state is still persisted and its id
still appended, but the exploration record is not committed and no state is
returned. -/
theorem add_state_spec (numDemos : Nat) (ds : Datastore) (e : Exploration)
    (name : String) (state_id : Option String) (genId : String) :
    (has_state_named ds.states e name = Except.ok true →
      (add_state numDemos ds e name state_id genId).2.2 =
        Except.error (PyError.exception ("Duplicate state name " ++ name))) ∧
    (has_state_named ds.states e name = Except.ok false →
      (is_demo numDemos e = true ∨ e.editors ≠ []) →
      ∃ s : State,
        (add_state numDemos ds e name state_id genId).2.2 = Except.ok s ∧
        s.name = name ∧
        s.id = chosenId state_id genId ∧
        stateGet (add_state numDemos ds e name state_id genId).1.states s.id = some s ∧
        (add_state numDemos ds e name state_id genId).2.1.state_ids =
          e.state_ids ++ [s.id] ∧
        expGet (add_state numDemos ds e name state_id genId).1.explorations e.id =
          some (add_state numDemos ds e name state_id genId).2.1) ∧
    (has_state_named ds.states e name = Except.ok false →
      is_demo numDemos e = false → e.editors = [] →
      (add_state numDemos ds e name state_id genId).2.2 =
        Except.error (PyError.modelValidationError "This exploration has no editors.") ∧
      stateGet (add_state numDemos ds e name state_id genId).1.states
          (chosenId state_id genId) = some ⟨chosenId state_id genId, name⟩ ∧
      (add_state numDemos ds e name state_id genId).2.1.state_ids =
        e.state_ids ++ [chosenId state_id genId] ∧
      (add_state numDemos ds e name state_id genId).1.explorations =
        ds.explorations) := by
  refine ⟨?hdup, ?hok, ?hfail⟩
  · intro h
    unfold add_state
    rw [h]
  · intro h1 hed
    obtain ⟨ss, hss⟩ := has_state_named_ok_getStates ds.states e name false h1
    have hres := getStates_ok_resolves ds.states e.state_ids ss hss
    have hhook := pre_put_hook_after_add numDemos ds e name
      (chosenId state_id genId) hres hed
    have hput := explorationPut_ok_eq numDemos
      ⟨statePut ds.states ⟨chosenId state_id genId, name⟩, ds.explorations⟩
      { e with state_ids := e.state_ids ++ [chosenId state_id genId] } hhook
    have hadd : add_state numDemos ds e name state_id genId =
        (⟨statePut ds.states ⟨chosenId state_id genId, name⟩,
            expPut ds.explorations
              { e with state_ids := e.state_ids ++ [chosenId state_id genId] }⟩,
          { e with state_ids := e.state_ids ++ [chosenId state_id genId] },
          Except.ok ⟨chosenId state_id genId, name⟩) := by
      unfold add_state
      rw [h1]
      simp only []
      rw [hput]
    refine ⟨⟨chosenId state_id genId, name⟩, ?ha, rfl, rfl, ?hb, ?hc, ?hd⟩
    · rw [hadd]
    · rw [hadd, stateGet_statePut]
      simp
    · rw [hadd]
    · rw [hadd, expGet_expPut]
      simp
  · intro h1 hdemo hed
    obtain ⟨ss, hss⟩ := has_state_named_ok_getStates ds.states e name false h1
    have hres := getStates_ok_resolves ds.states e.state_ids ss hss
    have hhook := pre_put_hook_no_editors
      (statePut ds.states ⟨chosenId state_id genId, name⟩) numDemos
      { e with state_ids := e.state_ids ++ [chosenId state_id genId] }
      (by simp)
      (resolve_statePut_append ds.states e.state_ids (chosenId state_id genId) name hres)
      hdemo hed
    have hputf := explorationPut_error_eq numDemos
      ⟨statePut ds.states ⟨chosenId state_id genId, name⟩, ds.explorations⟩
      { e with state_ids := e.state_ids ++ [chosenId state_id genId] } _ hhook
    have hadd : add_state numDemos ds e name state_id genId =
        (⟨statePut ds.states ⟨chosenId state_id genId, name⟩, ds.explorations⟩,
          { e with state_ids := e.state_ids ++ [chosenId state_id genId] },
          Except.error (PyError.modelValidationError "This exploration has no editors.")) := by
      unfold add_state
      rw [h1]
      simp only []
      rw [hputf]
    refine ⟨?fa, ?fb, ?fc, ?fd⟩
    · rw [hadd]
    · rw [hadd, stateGet_statePut]
      simp
    · rw [hadd]
    · rw [hadd]

/-- Witness for C3: a duplicate name raises, adding a state named `foo` to a
healthy one-state exploration persists and returns it, and on an editorless
non-demo exploration the commit raises after the state was persisted and
appended, without committing the record. -/
theorem add_state_spec_witness :
    ((add_state 0 ⟨[⟨"a", "foo"⟩], []⟩ ⟨"eD", "c", "t", ["a"], [], false, none, [⟨"u"⟩]⟩
        "foo" none "b").2.2 =
      Except.error (PyError.exception ("Duplicate state name " ++ "foo"))) ∧
    (∃ s : State,
      (add_state 0 ⟨[⟨"a", "bar"⟩], []⟩ ⟨"e", "c", "t", ["a"], [], false, none, [⟨"u"⟩]⟩
          "foo" none "b").2.2 = Except.ok s ∧
      s.name = "foo" ∧
      s.id = chosenId none "b" ∧
      stateGet (add_state 0 ⟨[⟨"a", "bar"⟩], []⟩
          ⟨"e", "c", "t", ["a"], [], false, none, [⟨"u"⟩]⟩
          "foo" none "b").1.states s.id = some s ∧
      (add_state 0 ⟨[⟨"a", "bar"⟩], []⟩ ⟨"e", "c", "t", ["a"], [], false, none, [⟨"u"⟩]⟩
          "foo" none "b").2.1.state_ids = ["a"] ++ [s.id] ∧
      expGet (add_state 0 ⟨[⟨"a", "bar"⟩], []⟩
          ⟨"e", "c", "t", ["a"], [], false, none, [⟨"u"⟩]⟩
          "foo" none "b").1.explorations "e" =
        some (add_state 0 ⟨[⟨"a", "bar"⟩], []⟩
          ⟨"e", "c", "t", ["a"], [], false, none, [⟨"u"⟩]⟩
          "foo" none "b").2.1) ∧
    ((add_state 0 ⟨[], []⟩ ⟨"x", "c", "t", [], [], false, none, []⟩
        "foo" none "s1").2.2 =
      Except.error (PyError.modelValidationError "This exploration has no editors.") ∧
    stateGet (add_state 0 ⟨[], []⟩ ⟨"x", "c", "t", [], [], false, none, []⟩
        "foo" none "s1").1.states (chosenId none "s1") =
      some ⟨chosenId none "s1", "foo"⟩ ∧
    (add_state 0 ⟨[], []⟩ ⟨"x", "c", "t", [], [], false, none, []⟩
        "foo" none "s1").2.1.state_ids = [] ++ [chosenId none "s1"] ∧
    (add_state 0 ⟨[], []⟩ ⟨"x", "c", "t", [], [], false, none, []⟩
        "foo" none "s1").1.explorations = []) :=
  ⟨(add_state_spec 0 ⟨[⟨"a", "foo"⟩], []⟩ ⟨"eD", "c", "t", ["a"], [], false, none, [⟨"u"⟩]⟩
      "foo" none "b").1 rfl,
    (add_state_spec 0 ⟨[⟨"a", "bar"⟩], []⟩ ⟨"e", "c", "t", ["a"], [], false, none, [⟨"u"⟩]⟩
      "foo" none "b").2.1 rfl (Or.inr (by decide)),
    (add_state_spec 0 ⟨[], []⟩ ⟨"x", "c", "t", [], [], false, none, []⟩
      "foo" none "s1").2.2 rfl rfl rfl⟩

/-! ## Errors outside the pre-put hook -/

/-- Counterexample for C2 as stated: `add_state` on a duplicate name raises a
bare `Exception`, not a validation error from the pre-save hook. -/
theorem add_state_raises_outside_hook :
    (add_state 0 ⟨[⟨"a", "foo"⟩], []⟩ ⟨"e2", "c", "t", ["a"], [], false, none, [⟨"u"⟩]⟩
        "foo" none "b").2.2 =
      Except.error (PyError.exception "Duplicate state name foo") :=
  rfl

/-- C2 as amended: the pre-save hook is not the only source of exceptions —
`add_state` raises a duplicate-name `Exception`, `is_owned_by` raises an
`IndexError` on an empty editors list with a non-null user, and `init_state`
raises an `IndexError` on an empty state list. -/
theorem errors_beyond_pre_put_hook (numDemos : Nat) (ds : Datastore)
    (e1 e2 e3 : Exploration) (name : String) (state_id : Option String)
    (genId : String) (u : User) :
    (has_state_named ds.states e1 name = Except.ok true →
      (add_state numDemos ds e1 name state_id genId).2.2 =
        Except.error (PyError.exception ("Duplicate state name " ++ name))) ∧
    (e2.editors = [] → is_owned_by e2 (some u) = Except.error PyError.indexError) ∧
    (e3.state_ids = [] → init_state ds e3 = Except.error PyError.indexError) := by
  refine ⟨?ha, ?hb, ?hc⟩
  · intro h
    unfold add_state
    rw [h]
  · intro h
    unfold is_owned_by
    rw [h]
  · intro h
    unfold init_state
    rw [h]

/-- Witness for C2's amendment: each of the three non-hook exceptions fires
on a concrete input. -/
theorem errors_beyond_pre_put_hook_witness :
    ((add_state 0 ⟨[⟨"a", "foo"⟩], []⟩
        ⟨"e2", "c", "t", ["a"], [], false, none, [⟨"u"⟩]⟩ "foo" none "b").2.2 =
      Except.error (PyError.exception ("Duplicate state name " ++ "foo"))) ∧
    (is_owned_by ⟨"0", "c", "t", ["a"], [], true, none, []⟩ (some ⟨"bob"⟩) =
      Except.error PyError.indexError) ∧
    (init_state ⟨[⟨"a", "foo"⟩], []⟩ ⟨"n", "c", "t", [], [], false, none, [⟨"u"⟩]⟩ =
      Except.error PyError.indexError) :=
  ⟨(errors_beyond_pre_put_hook 0 ⟨[⟨"a", "foo"⟩], []⟩
      ⟨"e2", "c", "t", ["a"], [], false, none, [⟨"u"⟩]⟩
      ⟨"0", "c", "t", ["a"], [], true, none, []⟩
      ⟨"n", "c", "t", [], [], false, none, [⟨"u"⟩]⟩
      "foo" none "b" ⟨"bob"⟩).1 rfl,
    (errors_beyond_pre_put_hook 0 ⟨[⟨"a", "foo"⟩], []⟩
      ⟨"e2", "c", "t", ["a"], [], false, none, [⟨"u"⟩]⟩
      ⟨"0", "c", "t", ["a"], [], true, none, []⟩
      ⟨"n", "c", "t", [], [], false, none, [⟨"u"⟩]⟩
      "foo" none "b" ⟨"bob"⟩).2.1 rfl,
    (errors_beyond_pre_put_hook 0 ⟨[⟨"a", "foo"⟩], []⟩
      ⟨"e2", "c", "t", ["a"], [], false, none, [⟨"u"⟩]⟩
      ⟨"0", "c", "t", ["a"], [], true, none, []⟩
      ⟨"n", "c", "t", [], [], false, none, [⟨"u"⟩]⟩
      "foo" none "b" ⟨"bob"⟩).2.2 rfl⟩

/-! ## delete -/

lemma deleteStatesLoop_ok (l : List String) (ds : Datastore)
    (h1 : ∀ x ∈ l, (stateGet ds.states x).isSome = true) (h2 : l.Nodup) :
    deleteStatesLoop ds l =
      ({ ds with states := ds.states.filter (fun t => !(l.contains t.id)) }, none) := by
  induction l generalizing ds with
  | nil =>
    simp only [deleteStatesLoop, List.contains_nil, Bool.not_false, List.filter_true]
  | cons sid rest ih =>
    obtain ⟨s, hs⟩ := Option.isSome_iff_exists.mp (h1 sid (List.mem_cons_self _ _))
    have hnd := List.nodup_cons.mp h2
    have h1r : ∀ x ∈ rest,
        (stateGet (stateDelete ds.states sid) x).isSome = true := by
      intro x hx
      have hxs : ¬x = sid := fun hcontra => hnd.1 (hcontra ▸ hx)
      rw [stateGet_stateDelete, if_neg hxs]
      exact h1 x (List.mem_cons_of_mem _ hx)
    have hstates : List.filter (fun t => !(rest.contains t.id)) (stateDelete ds.states sid) =
        List.filter (fun t => !((sid :: rest).contains t.id)) ds.states := by
      unfold stateDelete
      rw [List.filter_filter]
      apply List.filter_congr
      intro t _
      rw [List.contains_cons, Bool.not_or]
      simp only [bne]
      cases (t.id == sid) <;> cases rest.contains t.id <;> rfl
    unfold deleteStatesLoop
    rw [hs, ih { ds with states := stateDelete ds.states sid } h1r hnd.2]
    dsimp only
    rw [hstates]

/-- Counterexample for C5 as stated: an exploration listing the same state id
twice — every referenced state exists — still fails to delete its record:
the second strict `State.get` on the already-deleted id raises. -/
theorem exploration_delete_counterexample :
    stateGet [⟨"a", "s1"⟩] "a" = some ⟨"a", "s1"⟩ ∧
    Exploration.delete ⟨[⟨"a", "s1"⟩],
        [⟨"e1", "c", "t", ["a", "a"], [], false, none, [⟨"u"⟩]⟩]⟩
        ⟨"e1", "c", "t", ["a", "a"], [], false, none, [⟨"u"⟩]⟩ =
      (⟨[], [⟨"e1", "c", "t", ["a", "a"], [], false, none, [⟨"u"⟩]⟩]⟩,
        some PyError.entityNotFoundError) :=
  ⟨rfl, rfl⟩

/-- C5 as amended: when every state id resolves and the list has no
duplicates, `delete` removes exactly the states whose ids are referenced and
then removes the exploration record, leaving every other exploration
record in place. -/
theorem exploration_delete_spec (ds : Datastore) (e : Exploration)
    (h1 : ∀ x ∈ e.state_ids, (stateGet ds.states x).isSome = true)
    (h2 : e.state_ids.Nodup) :
    ∃ ds2 : Datastore,
      Exploration.delete ds e = (ds2, none) ∧
      ds2.states = ds.states.filter (fun t => !(e.state_ids.contains t.id)) ∧
      expGet ds2.explorations e.id = none ∧
      (∀ eid, ¬eid = e.id → expGet ds2.explorations eid = expGet ds.explorations eid) := by
  refine ⟨⟨ds.states.filter (fun t => !(e.state_ids.contains t.id)),
      expDelete ds.explorations e.id⟩, ?heq, rfl, ?hgone, ?hother⟩
  · unfold Exploration.delete
    rw [deleteStatesLoop_ok e.state_ids ds h1 h2]
  · rw [expGet_expDelete]
    simp
  · intro eid hne
    rw [expGet_expDelete, if_neg hne]

/-- Witness for C5: deleting a two-state exploration clears both states and
its own record while an unrelated record survives. -/
theorem exploration_delete_spec_witness :
    ∃ ds2 : Datastore,
      Exploration.delete
          ⟨[⟨"a", "s1"⟩, ⟨"b", "s2"⟩],
            [⟨"e1", "c", "t", ["a", "b"], [], false, none, [⟨"u"⟩]⟩]⟩
          ⟨"e1", "c", "t", ["a", "b"], [], false, none, [⟨"u"⟩]⟩ = (ds2, none) ∧
      ds2.states = List.filter (fun t => !(["a", "b"].contains t.id))
          [⟨"a", "s1"⟩, ⟨"b", "s2"⟩] ∧
      expGet ds2.explorations "e1" = none ∧
      (∀ eid, ¬eid = "e1" →
        expGet ds2.explorations eid =
          expGet [⟨"e1", "c", "t", ["a", "b"], [], false, none, [⟨"u"⟩]⟩] eid) :=
  exploration_delete_spec
    ⟨[⟨"a", "s1"⟩, ⟨"b", "s2"⟩], [⟨"e1", "c", "t", ["a", "b"], [], false, none, [⟨"u"⟩]⟩]⟩
    ⟨"e1", "c", "t", ["a", "b"], [], false, none, [⟨"u"⟩]⟩
    (by decide) (by decide)

end Oppia
